import Mathlib

/-!
Shallow embedding of the client-retention dashboard script (src/dashboard.py).

The script loads one table (a pandas DataFrame) and one model, computes KPIs,
per-category return rates, a category filter, a spending segmentation via
pd.cut, and a per-customer prediction lookup.  Rows are modelled as records
over the rationals (pandas floats are modelled as exact rationals); a pandas
NaN arising from the mean of an empty selection is modelled as Option.none.
-/

namespace Dashboard

/-- Spending-segment labels handed to pd.cut on line 107 of dashboard.py. -/
inductive SegLabel where
  | Low
  | Medium
  | High
  deriving DecidableEq

/-- One entry of the mixed-type feature row handed to the model: the numeric
columns, and the categorical Email_Engagement string. -/
inductive FeatureValue where
  | num (q : ℚ)
  | str (s : String)
  deriving DecidableEq

/-- One row of the loaded table, with the columns dashboard.py reads.  The
category indicator values are stored positionally, aligned with the table's
discovered category-name list. -/
structure Row where
  customerId : String
  date : String
  purchaseValue : ℚ
  emailEngagement : String
  discountUsed : ℚ
  returnVisit : ℚ
  frequency : ℚ
  totalSpent : ℚ
  avgSpent : ℚ
  recencyDays : ℚ
  purchaseMonth : ℚ
  purchaseDayOfWeek : ℚ
  categoryIndicators : List ℚ
  deriving DecidableEq

/-- The loaded DataFrame: the discovered category names (columns starting
with the category marker, in column order, line 22-23), the rows in load
order, and the Segment column, which is absent until line 104 assigns it. -/
structure Table where
  categoryNames : List String
  rows : List Row
  segmentCol : Option (List (Option SegLabel))
  deriving DecidableEq

/-- pandas Series.mean: NaN (none) on an empty series, else the sum divided
by the length. -/
def mean (xs : List ℚ) : Option ℚ :=
  if xs = [] then none else some (xs.sum / (xs.length : ℚ))

/-- Line 28: total_customers = df.shape[0]. -/
def total_customers (t : Table) : ℕ := t.rows.length

/-- Mean of the Return_Visit column over a list of rows (the value the spec
calls overallReturnRate, before the x100 display scaling). -/
def returnVisitMean (rows : List Row) : Option ℚ :=
  mean (rows.map Row.returnVisit)

/-- Line 29: overall_return_rate = df["Return_Visit"].mean() * 100. -/
def overall_return_rate (t : Table) : Option ℚ :=
  (returnVisitMean t.rows).map (fun q => q * 100)

/-- Line 30: avg_spend = df["Purchase_Value"].mean(). -/
def avg_spend (t : Table) : Option ℚ :=
  mean (t.rows.map Row.purchaseValue)

/-- Line 31: email_eng_rate = (df["Email_Engagement"] == "Clicked").mean() * 100. -/
def email_eng_rate (t : Table) : Option ℚ :=
  if t.rows = [] then none
  else some ((((t.rows.filter (fun r => r.emailEngagement == "Clicked")).length : ℚ)
      / (t.rows.length : ℚ)) * 100)

/-- Mean of Return_Visit over the rows whose i-th category indicator is 1
(line 64: df[df[col] == 1]["Return_Visit"].mean()). -/
def rateAt (rows : List Row) (i : ℕ) : Option ℚ :=
  mean ((rows.filter (fun r => decide (r.categoryIndicators.getD i 0 = 1))).map Row.returnVisit)

/-- Builds the per-category rate list from position j onwards. -/
def cat_returnAux (rows : List Row) : ℕ → List String → List (String × Option ℚ)
  | _, [] => []
  | j, c :: cs => (c, rateAt rows j) :: cat_returnAux rows (j + 1) cs

/-- Lines 63-67: cat_return, one entry per discovered category in discovery
order, mapped to the mean Return_Visit over that category's rows. -/
def cat_return (t : Table) : List (String × Option ℚ) :=
  cat_returnAux t.rows 0 t.categoryNames

/-- Insert x into a list keeping it sorted by key: x goes before the first
element whose key is not smaller, so equal keys keep their original order. -/
def insertLe {α κ : Type} [LinearOrder κ] (key : α → κ) (x : α) : List α → List α
  | [] => [x]
  | y :: ys => if key x ≤ key y then x :: y :: ys else y :: insertLe key x ys

/-- Stable insertion sort by a key.  This models the order of numpy's
argsort kernel in its insertion-sort regime: the default quicksort falls back
to a stable insertion sort only for ranges of at most 16 elements (its
small-sort cutoff), so the tie order modelled here is the program's tie order
only for that many entries; beyond the cutoff the introsort partitioning may
reorder ties and is not modelled. -/
def insertionSortBy {α κ : Type} [LinearOrder κ] (key : α → κ) : List α → List α
  | [] => []
  | x :: xs => insertLe key x (insertionSortBy key xs)

/-- Sort key of a category entry of cat_df: its Return_Rate (only applied to
entries whose rate is not NaN). -/
def keyRate (e : String × Option ℚ) : ℚ := e.2.getD 0

/-- pandas sort_values ascending (nargsort): sort the non-NaN entries
ascending, then append the NaN entries (na_position last). -/
def sortValuesAsc (xs : List (String × Option ℚ)) : List (String × Option ℚ) :=
  insertionSortBy keyRate (xs.filter (fun e => e.2.isSome)) ++ xs.filter (fun e => e.2.isNone)

/-- pandas sort_values descending (nargsort): for ascending=False, nargsort
REVERSES the non-NaN entries (together with their indices) before the
ascending argsort and reverses the resulting indexer afterwards, then appends
the NaN entries; with a stable kernel the two reversals cancel on ties, so
tied entries keep their original order. -/
def sortValuesDesc (xs : List (String × Option ℚ)) : List (String × Option ℚ) :=
  (insertionSortBy keyRate ((xs.filter (fun e => e.2.isSome)).reverse)).reverse
    ++ xs.filter (fun e => e.2.isNone)

/-- Line 84: cat_df.sort_values("Return_Rate", ascending=False).iloc[0]. -/
def top_category (t : Table) : Option (String × Option ℚ) :=
  (sortValuesDesc (cat_return t)).head?

/-- Line 85: cat_df.sort_values("Return_Rate").iloc[0]. -/
def lowest_category (t : Table) : Option (String × Option ℚ) :=
  (sortValuesAsc (cat_return t)).head?

/-- Line 74: the group keys of df.groupby("Email_Engagement"): the distinct
engagement values, sorted (groupby sorts keys by default). -/
def email_keys (rows : List Row) : List String :=
  insertionSortBy id (rows.map Row.emailEngagement).dedup

/-- Line 74: email_df, mean Return_Visit per Email_Engagement group. -/
def email_df (t : Table) : List (String × Option ℚ) :=
  (email_keys t.rows).map
    (fun k => (k, mean ((t.rows.filter (fun r => r.emailEngagement == k)).map Row.returnVisit)))

/-- pd.cut with default right=True: the value v is labelled by the first
bin interval (lo, hi] (left-open, right-closed) that contains it, and is
unlabelled (NaN) if no interval does. -/
def pdCut {L : Type} (bins : List ℚ) (labels : List L) (v : ℚ) : Option L :=
  ((bins.zip bins.tail).zip labels).findSome?
    (fun p => if p.1.1 < v ∧ v ≤ p.1.2 then some p.2 else none)

/-- Lines 104-108: the segment of a Purchase_Value under
pd.cut(bins=[0, 80, 150, 300], labels=[Low, Medium, High]). -/
def segmentOf (v : ℚ) : Option SegLabel :=
  pdCut [0, 80, 150, 300] [SegLabel.Low, SegLabel.Medium, SegLabel.High] v

/-- Lines 104-110: assigns df["Segment"] (overwriting the shared table's
Segment column) and then groups mean Return_Visit by segment label; rows with
no segment (NaN) fall in no group.  Returns the grouped result together with
the table as it stands after the column assignment. -/
def segmentAndAggregate (t : Table) : List (SegLabel × Option ℚ) × Table :=
  let segs := t.rows.map (fun r => segmentOf r.purchaseValue)
  let t1 : Table := { t with segmentCol := some segs }
  let groups := [SegLabel.Low, SegLabel.Medium, SegLabel.High].map
    (fun lab => (lab,
      mean (((t1.rows.zip segs).filter (fun p => decide (p.2 = some lab))).map
        (fun p => p.1.returnVisit))))
  (groups, t1)

/-- Lines 45-50: the category filter.  "All" returns the table unchanged
(df.copy()); a known category name keeps the rows whose indicator column
equals 1; an unknown name hits a missing column, which the spec's taxonomy
calls UnknownCategoryError (pandas raises a KeyError), leaving the base
table untouched. -/
def filterByCategory (t : Table) (name : String) : Except String Table :=
  if name = "All" then Except.ok t
  else if name ∈ t.categoryNames then
    let keep := fun (r : Row) =>
      decide (r.categoryIndicators.getD (t.categoryNames.indexOf name) 0 = 1)
    Except.ok { t with rows := t.rows.filter keep }
  else Except.error "UnknownCategoryError"

/-- Line 53: the return rate of the filtered view, filtered_df["Return_Visit"].mean(). -/
def filtered_return_rate (view : Table) : Option ℚ :=
  returnVisitMean view.rows

/-- Lines 127-133: the feature row handed to the model, in the exact order of
feature_cols: the nine named columns followed by the category indicator
columns in source-table order. -/
def featureVector (r : Row) : List FeatureValue :=
  [FeatureValue.num r.purchaseValue, FeatureValue.str r.emailEngagement,
   FeatureValue.num r.discountUsed, FeatureValue.num r.frequency,
   FeatureValue.num r.totalSpent, FeatureValue.num r.avgSpent,
   FeatureValue.num r.recencyDays, FeatureValue.num r.purchaseMonth,
   FeatureValue.num r.purchaseDayOfWeek]
  ++ r.categoryIndicators.map FeatureValue.num

/-- Lines 122-135: the prediction lookup.  The guard (if cust_id and ...)
short-circuits the empty string; otherwise the first row whose Customer_ID
matches is selected (iloc[0:1]) and the model is applied to its feature
vector.  none means the body of the if never runs: nothing is computed. -/
def predictionOutput (model : List FeatureValue → ℚ) (t : Table) (custId : String) : Option ℚ :=
  if custId = "" then none
  else
    match t.rows.find? (fun r => r.customerId == custId) with
    | none => none
    | some r => some (model (featureVector r))

/-- What the prediction section renders: line 136 shows a probability on
success; no other widget is emitted by this section. -/
inductive Rendered where
  | probability (p : ℚ)
  | notFound
  deriving DecidableEq

/-- Lines 124-138: the rendered outcome of the lookup section; none when the
guard fails or no row matches (the script renders nothing in that case). -/
def renderPrediction (model : List FeatureValue → ℚ) (t : Table) (custId : String) :
    Option Rendered :=
  (predictionOutput model t custId).map Rendered.probability

/-- Rounding to three decimal places, as used by the spec's worked example. -/
def roundTo3 (q : ℚ) : ℚ := ((round (q * 1000) : ℤ) : ℚ) / 1000

/-- A concrete row builder for the sample tables used in witnesses and
counterexamples. -/
def mkRow (cid : String) (pv rv : ℚ) (inds : List ℚ) : Row :=
  { customerId := cid, date := "2024-01-01", purchaseValue := pv,
    emailEngagement := "None", discountUsed := 0, returnVisit := rv,
    frequency := 1, totalSpent := pv, avgSpent := pv, recencyDays := 10,
    purchaseMonth := 1, purchaseDayOfWeek := 0, categoryIndicators := inds }

/-- A model stub returning probability one half on every input. -/
def constHalf : List FeatureValue → ℚ := fun _ => 1 / 2

/-- Sample table for the segment-column side effect: one category, one row. -/
def c2table : Table :=
  { categoryNames := ["A"], rows := [mkRow "c1" 100 1 [1]], segmentCol := none }

/-- Sample table where category A has zero matching rows. -/
def c3table : Table :=
  { categoryNames := ["A"], rows := [mkRow "c1" 50 1 [0]], segmentCol := none }

/-- Sample table with a category but no rows at all. -/
def c3empty : Table :=
  { categoryNames := ["A"], rows := [], segmentCol := none }

/-- Sample table with one customer, used for a failed lookup. -/
def c5table : Table :=
  { categoryNames := [], rows := [mkRow "c1" 50 1 []], segmentCol := none }

/-- Sample table holding a row whose Customer_ID is the empty string. -/
def c6table : Table :=
  { categoryNames := [], rows := [mkRow "" 50 1 []], segmentCol := none }

/-- The first of two rows sharing Customer_ID c9. -/
def c6rowB : Row := mkRow "c9" 60 1 [1]

/-- Sample table where Customer_ID c9 appears on two rows. -/
def c6tableB : Table :=
  { categoryNames := ["A"], rows := [c6rowB, mkRow "c9" 70 0 [1]], segmentCol := none }

/-- Sample table for the unknown-category filter witness. -/
def c8table : Table :=
  { categoryNames := ["A"], rows := [mkRow "c1" 50 1 [1]], segmentCol := none }

/-- The spec's worked example: three rows with Return_Visit 1, 0, 1. -/
def c9rows : List Row := [mkRow "a" 10 1 [], mkRow "b" 10 0 [], mkRow "c" 10 1 []]

/-- Table carrying the spec's worked example rows. -/
def c9table : Table := { categoryNames := [], rows := c9rows, segmentCol := none }

/-! ### Helper lemmas -/

lemma cat_returnAux_map_fst (rows : List Row) (cs : List String) :
    ∀ j : ℕ, (cat_returnAux rows j cs).map Prod.fst = cs := by
  induction cs with
  | nil => intro j; simp [cat_returnAux]
  | cons c cs ih => intro j; simp [cat_returnAux, ih (j + 1)]

lemma cat_returnAux_get? (rows : List Row) (cs : List String) :
    ∀ j k : ℕ, (cat_returnAux rows j cs).get? k
      = (cs.get? k).map (fun c => (c, rateAt rows (j + k))) := by
  induction cs with
  | nil => intro j k; simp [cat_returnAux]
  | cons c cs ih =>
    intro j k
    cases k with
    | zero => simp [cat_returnAux]
    | succ k =>
      have hidx : j + 1 + k = j + (k + 1) := by omega
      simp only [cat_returnAux, List.get?]
      rw [ih (j + 1) k, hidx]

lemma sum_zero_one_bounds (vs : List ℚ) (h : ∀ v ∈ vs, v = 0 ∨ v = 1) :
    0 ≤ vs.sum ∧ vs.sum ≤ (vs.length : ℚ) := by
  induction vs with
  | nil => simp
  | cons v vs ih =>
    have hv := h v (List.mem_cons_self v vs)
    have ih2 := ih (fun w hw => h w (List.mem_cons_of_mem v hw))
    simp only [List.sum_cons, List.length_cons]
    push_cast
    rcases hv with rfl | rfl <;> constructor <;> linarith [ih2.1, ih2.2]

lemma segmentOf_eq (v : ℚ) : segmentOf v =
    if 0 < v ∧ v ≤ 80 then some SegLabel.Low
    else if 80 < v ∧ v ≤ 150 then some SegLabel.Medium
    else if 150 < v ∧ v ≤ 300 then some SegLabel.High
    else none := by
  by_cases h1 : 0 < v ∧ v ≤ 80
  · simp [segmentOf, pdCut, List.findSome?_cons, h1]
  · by_cases h2 : 80 < v ∧ v ≤ 150
    · simp [segmentOf, pdCut, List.findSome?_cons, h1, h2]
    · by_cases h3 : 150 < v ∧ v ≤ 300
      · simp [segmentOf, pdCut, List.findSome?_cons, h1, h2, h3]
      · simp [segmentOf, pdCut, List.findSome?_cons, h1, h2, h3]

/-! ### Claim theorems -/

/-- C1 counterexample: the claimed boundary behaviour is false on the code.
pd.cut with right-closed default bins gives Purchase_Value 0 no segment,
puts 80 in Low (not Medium) and 300 in High (not unlabeled). -/
theorem c1_counterexample :
    ¬ (segmentOf 0 = some SegLabel.Low ∧ segmentOf 80 = some SegLabel.Medium ∧
        segmentOf 300 = none) := by
  decide

/-- C1 (amended): the derived Segment bins Purchase_Value into ranges that are
half-open on the LEFT: a value in (0,80] gets Low, (80,150] gets Medium,
(150,300] gets High, and anything else (including 0 itself and values above
300) is unlabeled; in particular 0 gets no segment, 80 gets Low and 300 gets
High. -/
theorem c1_cut_bins (v : ℚ) :
    (segmentOf v = some SegLabel.Low ↔ 0 < v ∧ v ≤ 80) ∧
    (segmentOf v = some SegLabel.Medium ↔ 80 < v ∧ v ≤ 150) ∧
    (segmentOf v = some SegLabel.High ↔ 150 < v ∧ v ≤ 300) ∧
    (segmentOf v = none ↔ v ≤ 0 ∨ 300 < v) := by
  rw [segmentOf_eq]
  split_ifs with h1 h2 h3
  · refine ⟨iff_of_true rfl h1, iff_of_false (by simp) ?_, iff_of_false (by simp) ?_,
      iff_of_false (by simp) ?_⟩
    · rintro ⟨hx, _⟩; linarith [h1.2]
    · rintro ⟨hx, _⟩; linarith [h1.2]
    · rintro (hx | hx) <;> linarith [h1.1, h1.2]
  · refine ⟨iff_of_false (by simp) ?_, iff_of_true rfl h2, iff_of_false (by simp) ?_,
      iff_of_false (by simp) ?_⟩
    · rintro ⟨_, hy⟩; linarith [h2.1]
    · rintro ⟨hx, _⟩; linarith [h2.2]
    · rintro (hx | hx) <;> linarith [h2.1, h2.2]
  · refine ⟨iff_of_false (by simp) ?_, iff_of_false (by simp) ?_, iff_of_true rfl h3,
      iff_of_false (by simp) ?_⟩
    · rintro ⟨_, hy⟩; linarith [h3.1]
    · rintro ⟨_, hy⟩; linarith [h3.1]
    · rintro (hx | hx) <;> linarith [h3.1, h3.2]
  · push_neg at h1 h2 h3
    have hout : v ≤ 0 ∨ 300 < v := by
      by_cases hv : 0 < v
      · exact Or.inr (h3 (h2 (h1 hv)))
      · exact Or.inl (le_of_not_lt hv)
    refine ⟨iff_of_false (by simp) ?_, iff_of_false (by simp) ?_, iff_of_false (by simp) ?_,
      iff_of_true rfl hout⟩
    · rintro ⟨hx, hy⟩; have := h1 hx; linarith
    · rintro ⟨hx, hy⟩; have := h2 hx; linarith
    · rintro ⟨hx, hy⟩; have := h3 hx; linarith

/-- C2 counterexample: segmentAndAggregate does NOT leave the table
unchanged — it writes the Segment column onto the shared table (line 104),
so on a table without that column the resulting table differs. -/
theorem c2_counterexample : (segmentAndAggregate c2table).2 ≠ c2table := by
  decide

/-- C2 (amended): the aggregation operations other than segmentAndAggregate
leave the table unchanged and read only the rows and the category names, so
the Segment-column write does not alter any of their results; and
segmentAndAggregate itself is idempotent: running it a second time yields the
identical grouped result and the identical table (the write reaches a fixed
point after the first call), and it never changes the rows or the category
names. -/
theorem c2_segment_write_idempotent (t : Table) :
    (segmentAndAggregate (segmentAndAggregate t).2).1 = (segmentAndAggregate t).1 ∧
    (segmentAndAggregate (segmentAndAggregate t).2).2 = (segmentAndAggregate t).2 ∧
    (segmentAndAggregate t).2.rows = t.rows ∧
    (segmentAndAggregate t).2.categoryNames = t.categoryNames ∧
    total_customers (segmentAndAggregate t).2 = total_customers t ∧
    overall_return_rate (segmentAndAggregate t).2 = overall_return_rate t ∧
    avg_spend (segmentAndAggregate t).2 = avg_spend t ∧
    email_eng_rate (segmentAndAggregate t).2 = email_eng_rate t ∧
    cat_return (segmentAndAggregate t).2 = cat_return t ∧
    email_df (segmentAndAggregate t).2 = email_df t ∧
    top_category (segmentAndAggregate t).2 = top_category t ∧
    lowest_category (segmentAndAggregate t).2 = lowest_category t ∧
    filtered_return_rate (segmentAndAggregate t).2 = filtered_return_rate t :=
  ⟨rfl, rfl, rfl, rfl, rfl, rfl, rfl, rfl, rfl, rfl, rfl, rfl, rfl⟩

/-- C3 counterexample: a category with zero matching rows is reported with a
NaN rate (pandas mean of an empty selection), not with 0; likewise the
filtered return rate of an empty view is NaN, not 0. -/
theorem c3_counterexample :
    cat_return c3table = [("A", (none : Option ℚ))] ∧
    cat_return c3table ≠ [("A", some (0 : ℚ))] ∧
    filtered_return_rate c3empty = none ∧
    filtered_return_rate c3empty ≠ some (0 : ℚ) := by
  decide

/-- C3 (amended): no empty-data condition raises — every operation is total —
and every category of CategorySet appears as a key of cat_return in discovery
order; but a category with zero matching rows is reported with an undefined
(NaN, modelled none) rate rather than 0, and the filtered return rate of an
empty view is likewise NaN rather than 0. -/
theorem c3_category_keys_nan (t : Table) :
    ((cat_return t).map Prod.fst = t.categoryNames) ∧
    (∀ k c v, (cat_return t).get? k = some (c, v) →
      t.rows.filter (fun r => decide (r.categoryIndicators.getD k 0 = 1)) = [] →
      v = none) ∧
    (∀ view : Table, view.rows = [] → filtered_return_rate view = none) := by
  refine ⟨cat_returnAux_map_fst t.rows t.categoryNames 0, ?_, ?_⟩
  · intro k c v hk hf
    rw [cat_return, cat_returnAux_get?] at hk
    cases hg : t.categoryNames.get? k with
    | none => rw [hg] at hk; simp at hk
    | some name =>
      rw [hg] at hk
      have hk2 : some (name, rateAt t.rows (0 + k)) = some (c, v) := hk
      injection hk2 with hk2
      have hv : rateAt t.rows (0 + k) = v := congrArg Prod.snd hk2
      rw [← hv, Nat.zero_add, rateAt, hf]
      rfl
  · intro view hv
    simp [filtered_return_rate, returnVisitMean, hv, mean]

/-- C3 witness: the amended statement applied to the concrete empty table. -/
theorem c3_category_keys_nan_witness :
    c3empty.rows = [] ∧ filtered_return_rate c3empty = none :=
  ⟨rfl, (c3_category_keys_nan c3empty).2.2 c3empty rfl⟩

/-- C5 counterexample: for a customer ID with no matching row the script
renders NOTHING — not a not-found indicator.  The claim that a not-found
indicator is rendered is false at this concrete input. -/
theorem c5_counterexample :
    renderPrediction constHalf c5table "zzz" = none ∧
    renderPrediction constHalf c5table "zzz" ≠ some Rendered.notFound := by
  decide

/-- C5 (amended): for every customer identifier with no matching row, the
lookup produces nothing at all: no prediction is attempted (the result is
none for EVERY model, so the model is never called) and nothing is rendered —
neither a probability nor a not-found indicator. -/
theorem c5_not_found_renders_nothing (model : List FeatureValue → ℚ) (t : Table)
    (custId : String) (h : ∀ r ∈ t.rows, r.customerId ≠ custId) :
    predictionOutput model t custId = none ∧ renderPrediction model t custId = none := by
  have hfind : t.rows.find? (fun r => r.customerId == custId) = none :=
    List.find?_eq_none.mpr (fun r hr => by simpa using h r hr)
  have hp : predictionOutput model t custId = none := by
    simp [predictionOutput, hfind]
  exact ⟨hp, by simp [renderPrediction, hp]⟩

/-- C5 witness: the amended statement at the concrete missing ID. -/
theorem c5_not_found_renders_nothing_witness :
    predictionOutput constHalf c5table "zzz" = none ∧
    renderPrediction constHalf c5table "zzz" = none :=
  c5_not_found_renders_nothing constHalf c5table "zzz" (by decide)

/-- C6 counterexample: the quantification over every matching identifier is
false for the empty string: the row whose Customer_ID is empty matches, yet
the guard short-circuits and no prediction is made. -/
theorem c6_counterexample :
    (∃ r ∈ c6table.rows, r.customerId = "") ∧
    predictionOutput constHalf c6table "" = none := by
  decide

/-- C6 (amended): for every NON-EMPTY customer identifier with at least one
matching row, the lookup selects the first matching row in load order and
calls the model on the feature vector built in the exact ordered schema —
the nine named feature columns followed by the category indicator columns in
source-table order. -/
theorem c6_first_match_features (model : List FeatureValue → ℚ) (t : Table)
    (custId : String) (r : Row) (h1 : custId ≠ "")
    (h2 : t.rows.find? (fun row => row.customerId == custId) = some r) :
    predictionOutput model t custId = some (model (featureVector r)) ∧
    featureVector r = [FeatureValue.num r.purchaseValue, FeatureValue.str r.emailEngagement,
      FeatureValue.num r.discountUsed, FeatureValue.num r.frequency,
      FeatureValue.num r.totalSpent, FeatureValue.num r.avgSpent,
      FeatureValue.num r.recencyDays, FeatureValue.num r.purchaseMonth,
      FeatureValue.num r.purchaseDayOfWeek] ++ r.categoryIndicators.map FeatureValue.num := by
  refine ⟨?_, rfl⟩
  simp [predictionOutput, h1, h2]

/-- C6 witness: the amended statement at a concrete duplicated ID, picking
the first of the two matching rows. -/
theorem c6_first_match_features_witness :
    predictionOutput constHalf c6tableB "c9" = some (constHalf (featureVector c6rowB)) ∧
    featureVector c6rowB = [FeatureValue.num c6rowB.purchaseValue,
      FeatureValue.str c6rowB.emailEngagement, FeatureValue.num c6rowB.discountUsed,
      FeatureValue.num c6rowB.frequency, FeatureValue.num c6rowB.totalSpent,
      FeatureValue.num c6rowB.avgSpent, FeatureValue.num c6rowB.recencyDays,
      FeatureValue.num c6rowB.purchaseMonth, FeatureValue.num c6rowB.purchaseDayOfWeek]
      ++ c6rowB.categoryIndicators.map FeatureValue.num :=
  c6_first_match_features constHalf c6tableB "c9" c6rowB (by decide) (by decide)

/-- C7: filtering with the sentinel All returns the full table itself
unmodified (so the view trivially has the same row count), and the filtered
return rate over it is the same Return_Visit mean that the overall KPI scales
by 100 for display. -/
theorem c7_filter_all (t : Table) :
    filterByCategory t "All" = Except.ok t ∧
    filtered_return_rate t = returnVisitMean t.rows ∧
    overall_return_rate t = (filtered_return_rate t).map (fun q => q * 100) := by
  refine ⟨?_, rfl, rfl⟩
  simp [filterByCategory]

/-- C8: filtering by a name outside CategorySet (other than the sentinel)
fails with UnknownCategoryError; being a plain error return, the base table
is left untouched. -/
theorem c8_unknown_category (t : Table) (name : String)
    (h1 : name ≠ "All") (h2 : name ∉ t.categoryNames) :
    filterByCategory t name = Except.error "UnknownCategoryError" := by
  simp [filterByCategory, h1, h2]

/-- C8 witness: the unknown name Bogus on a concrete one-category table. -/
theorem c8_unknown_category_witness :
    filterByCategory c8table "Bogus" = Except.error "UnknownCategoryError" :=
  c8_unknown_category c8table "Bogus" (by decide) (by decide)

/-- C9: on a non-empty table of 0/1 Return_Visit values the Return_Visit
mean (the value the spec calls overallReturnRate; the code multiplies it by
100 only for display) is defined, lies in [0,1] and equals the sum over the
rows divided by the row count; and on the spec's worked 3-row example with
values 1, 0, 1 it is 2/3, which is 0.667 when rounded to 3 decimals. -/
theorem c9_overall_rate (t : Table) (h1 : t.rows ≠ [])
    (h2 : ∀ r ∈ t.rows, r.returnVisit = 0 ∨ r.returnVisit = 1) :
    (∃ q, returnVisitMean t.rows = some q ∧ 0 ≤ q ∧ q ≤ 1 ∧
      q = (t.rows.map Row.returnVisit).sum / ((t.rows.length : ℚ))) ∧
    returnVisitMean c9rows = some (2 / 3) ∧ roundTo3 (2 / 3) = 667 / 1000 := by
  refine ⟨?_, ?_, ?_⟩
  · have hvs : t.rows.map Row.returnVisit ≠ [] := by
      intro hc
      exact h1 (List.map_eq_nil_iff.mp hc)
    have hlenpos : (0 : ℚ) < ((t.rows.map Row.returnVisit).length : ℚ) := by
      exact_mod_cast List.length_pos.mpr hvs
    have hb := sum_zero_one_bounds (t.rows.map Row.returnVisit) (by
      intro v hv
      rcases List.mem_map.mp hv with ⟨r, hr, rfl⟩
      exact h2 r hr)
    refine ⟨(t.rows.map Row.returnVisit).sum / ((t.rows.map Row.returnVisit).length : ℚ),
      ?_, ?_, ?_, ?_⟩
    · rw [returnVisitMean, mean, if_neg hvs]
    · exact div_nonneg hb.1 (le_of_lt hlenpos)
    · rw [div_le_one hlenpos]
      exact hb.2
    · rw [List.length_map]
  · norm_num [returnVisitMean, c9rows, mkRow, mean]
    intro h
    simp at h
  · norm_num [roundTo3, round_eq]

/-- C9 witness: the bounds and the mean formula at the worked 3-row table. -/
theorem c9_overall_rate_witness :
    c9table.rows ≠ [] ∧
    (∃ q, returnVisitMean c9table.rows = some q ∧ 0 ≤ q ∧ q ≤ 1 ∧
      q = (c9table.rows.map Row.returnVisit).sum / ((c9table.rows.length : ℚ))) :=
  ⟨by decide, (c9_overall_rate c9table (by decide) (by decide)).1⟩

/-- C10: the guard on line 124 short-circuits the empty customer identifier:
for EVERY table (even one in which a row's Customer_ID is the empty string)
and every model, no lookup happens, the model is not called, and no result —
neither a probability nor a not-found outcome — is produced or rendered. -/
theorem c10_empty_id_short_circuit (t : Table) (model : List FeatureValue → ℚ) :
    predictionOutput model t "" = none ∧ renderPrediction model t "" = none := by
  constructor <;> simp [predictionOutput, renderPrediction]

end Dashboard
